import Mathlib

/-!
Shallow embedding of `generate_sweden_json.py` (avimedia/tilfluktsrom-data).

The program is a linear ETL pipeline:
  * `fetch_all_shelters` — paginated fetch loop against an ArcGIS feature
    service (modelled here as a function from offsets to responses, with
    explicit fuel since the Python `while True` loop has no syntactic bound);
  * `convert_to_app_format` — per-record field remapping into a GeoJSON-like
    feature collection, with a diagnostic counter of addresses containing
    Swedish characters (the counter is only printed by the script; we model it
    as the second component of the result pair);
  * `__main__` — fetch, exit 1 on empty result, otherwise convert and write.

JSON dictionary fields are modelled with `Option`: for an attribute,
`none` means the key is absent and `some none` means the key is present with
JSON `null`; geometry coordinates are `Option` for key presence.  Coordinate
values are modelled as `Rat` (JSON numbers; the program never computes with
them, it only copies them).  The capacity attribute is modelled as an integer
(the service field is an integer count), so Python `int(...)` is the identity.
-/

namespace SwedenShelters

/-- Coordinate values carried by the geometry object.  The program copies them
verbatim, so any type with decidable equality is faithful; we use `Rat` for
JSON numbers. -/
abbrev Coord := Rat

/-- The `geometry` dictionary of one ArcGIS feature: `none` = key absent. -/
structure Geometry where
  x : Option Coord
  y : Option Coord
deriving DecidableEq

/-- The `attributes` dictionary of one ArcGIS feature.  Outer `Option` = key
present or absent; inner `Option` = stored value may be JSON `null`. -/
structure Attributes where
  gatuadress : Option (Option String)
  antalPlatser : Option (Option Int)
  skyddsrumsnr : Option (Option Int)
deriving DecidableEq

/-- One raw record from the feature service (source: per-feature dicts). -/
structure ArcgisFeature where
  attributes : Attributes
  geometry : Geometry
deriving DecidableEq

/-- One output feature's `properties` plus its point coordinates
(source lines 97–109). -/
structure NormalizedFeature where
  coordinates : Coord × Coord
  romnr : Nat
  plasser : Int
  adresse : Option String
  datauttaksdato : String
deriving DecidableEq

/-- The output document (source lines 112–116): fixed name, features list.
The `type` field is the constant string "FeatureCollection" and carries no
information, so it is not a field here. -/
structure FeatureCollection where
  name : String
  features : List NormalizedFeature
deriving DecidableEq

/-- Source line 88 / 151: the fixed list `['å', 'ä', 'ö', 'Å', 'Ä', 'Ö']`. -/
def swedishChars : List Char := ['å', 'ä', 'ö', 'Å', 'Ä', 'Ö']

/-- Source line 88: `any(char in address for char in [...])` — for a single
character, Python `in` is occurrence among the string's characters. -/
def hasSwedishChar (s : String) : Bool :=
  swedishChars.any fun c => s.data.contains c

/-- Python `str.strip()`: remove leading and trailing whitespace. -/
def strip (s : String) : String :=
  ⟨((s.data.dropWhile Char.isWhitespace).reverse.dropWhile Char.isWhitespace).reverse⟩

/-- Source line 84: `attrs.get("Gatuadress", "Okänd adress")` — the default is
used only when the key is absent; a stored `null` comes through as `none`. -/
def rawAddress (a : Attributes) : Option String :=
  match a.gatuadress with
  | none => some "Okänd adress"
  | some v => v

/-- Source lines 84–86: the final value bound to `address` ( `None` and the
empty string are falsy, so `if address:` skips the `strip` for them). -/
def adresseOut (a : Attributes) : Option String :=
  match rawAddress a with
  | none => none
  | some s => if s.isEmpty then some s else some (strip s)

/-- Source lines 85–89: whether this record bumps `swedish_char_count`
(only a truthy address is inspected, after `strip`). -/
def swedishInc (a : Attributes) : Bool :=
  match rawAddress a with
  | none => false
  | some s => !s.isEmpty && hasSwedishChar (strip s)

/-- Source lines 91–93: `attrs.get("AntalPlatser", 0)` then `None → 0`. -/
def capacityNum (a : Attributes) : Int :=
  match a.antalPlatser with
  | none => 0
  | some none => 0
  | some (some n) => n

/-- Source line 105: `int(capacity) if capacity else 0` — an integer is truthy
exactly when it is nonzero, and `int` is the identity on integers. -/
def plasserOut (a : Attributes) : Int :=
  if capacityNum a ≠ 0 then capacityNum a else 0

/-- Source lines 72–110: the conversion loop.  `idx` is the `enumerate`
counter over the INPUT list; a record without both geometry keys is skipped
(`continue`).  Returns the emitted features and the value of
`swedish_char_count`. -/
def convertGo (today : String) : Nat → List ArcgisFeature → List NormalizedFeature × Nat
  | _, [] => ([], 0)
  | idx, arcf :: rest =>
    match arcf.geometry.x, arcf.geometry.y with
    | some lon, some lat =>
      let res := convertGo today (idx + 1) rest
      (({ coordinates := (lon, lat)
          romnr := idx
          plasser := plasserOut arcf.attributes
          adresse := adresseOut arcf.attributes
          datauttaksdato := today } : NormalizedFeature) :: res.1,
       (if swedishInc arcf.attributes then 1 else 0) + res.2)
    | _, _ => convertGo today (idx + 1) rest

/-- Source lines 64–121: `convert_to_app_format`.  `today` stands for
`datetime.now().strftime("%Y-%m-%d")`, constant within one run.  The second
component is the diagnostic `swedish_char_count`, which the script only
prints. -/
def convert_to_app_format (today : String) (arcgis_features : List ArcgisFeature) :
    FeatureCollection × Nat :=
  let res := convertGo today 0 arcgis_features
  ({ name := "Skyddsrum Sverige", features := res.1 }, res.2)

/-- One page response of the feature service, as seen by the fetch loop:
a body with an `error` key, a normal body with a feature list, or a
network/parse exception raised inside the `try`. -/
inductive FetchResponse where
  | errorBody : FetchResponse
  | ok : List ArcgisFeature → FetchResponse
  | exn : FetchResponse
deriving DecidableEq

/-- Source line 21: `page_size = 2000`. -/
def pageSize : Nat := 2000

/-- Source lines 23–59: the fetch loop.  `server` maps an offset to the
response of the query at that offset; `fuel` bounds the number of iterations
(the Python loop is `while True`).  Returns the accumulated features and the
list of offsets actually requested.  Order of checks per page mirrors the
source: error key, empty feature list, short page, else continue. -/
def fetchLoop (server : Nat → FetchResponse) :
    Nat → Nat → List ArcgisFeature → List ArcgisFeature × List Nat
  | 0, _, acc => (acc, [])
  | fuel + 1, offset, acc =>
    match server offset with
    | FetchResponse.errorBody => (acc, [offset])
    | FetchResponse.exn => (acc, [offset])
    | FetchResponse.ok features =>
      if features.isEmpty then (acc, [offset])
      else if features.length < pageSize then (acc ++ features, [offset])
      else
        let res := fetchLoop server fuel (offset + pageSize) (acc ++ features)
        (res.1, offset :: res.2)

/-- Source lines 11–62: `fetch_all_shelters` starts at offset 0 with an empty
accumulator. -/
def fetch_all_shelters (server : Nat → FetchResponse) (fuel : Nat) :
    List ArcgisFeature :=
  (fetchLoop server fuel 0 []).1

/-- Source lines 123–135: the `__main__` control flow.  First component is the
process exit code (1 via `exit(1)` on an empty fetch result, otherwise the
implicit 0); second is the document written to disk, `none` when the program
exited before converting. -/
def runMain (today : String) (server : Nat → FetchResponse) (fuel : Nat) :
    Nat × Option FeatureCollection :=
  let arcgis_features := fetch_all_shelters server fuel
  if arcgis_features.isEmpty then (1, none)
  else (0, some (convert_to_app_format today arcgis_features).1)

/-! ### Declarative characterizations used to state the claims -/

/-- A record is retained exactly when both geometry keys are present
(source line 77). -/
def retained (f : ArcgisFeature) : Bool :=
  f.geometry.x.isSome && f.geometry.y.isSome

/-- The coordinate pair stored in a record's geometry (the defaults are never
reached for a retained record, which has both keys). -/
def coordPair (f : ArcgisFeature) : Coord × Coord :=
  (f.geometry.x.getD 0, f.geometry.y.getD 0)

/-- The retained records of a list paired with their 0-based INPUT positions,
starting the numbering at `i`. -/
def enumRetained : Nat → List ArcgisFeature → List (Nat × ArcgisFeature)
  | _, [] => []
  | i, f :: rest =>
    if retained f then (i, f) :: enumRetained (i + 1) rest
    else enumRetained (i + 1) rest

/-- The feature the conversion loop emits for the record at input position
`idx`, written per-record. -/
def recordFeature (today : String) (idx : Nat) (f : ArcgisFeature) : NormalizedFeature :=
  { coordinates := coordPair f
    romnr := idx
    plasser := plasserOut f.attributes
    adresse := adresseOut f.attributes
    datauttaksdato := today }

/-- The sequence of `romnr` values over the output document, in emission
order. -/
def romnrSeq (today : String) (xs : List ArcgisFeature) : List Nat :=
  ((convert_to_app_format today xs).1).features.map fun f => f.romnr

/-- Modelled from the spec (amended C4 wording): the output address as a
function of the raw attribute — placeholder only for a missing key, `null`
passed through, empty string kept, otherwise trimmed. -/
def adresseSpec : Option (Option String) → Option String
  | none => some "Okänd adress"
  | some none => none
  | some (some s) => if s.isEmpty then some s else some (strip s)

/-- Modelled from the spec (C6 wording): missing or null capacity is 0,
otherwise the stored value coerced to an integer (identity on integers). -/
def capacitySpec : Option (Option Int) → Int
  | none => 0
  | some none => 0
  | some (some n) => n


/-! ### Structural lemmas about the conversion loop -/

theorem convertGo_spec (today : String) (xs : List ArcgisFeature) : ∀ i : Nat,
    convertGo today i xs
      = ((enumRetained i xs).map fun p => recordFeature today p.1 p.2,
         xs.countP fun f => retained f && swedishInc f.attributes) := by
  induction xs with
  | nil => intro i; rfl
  | cons f rest ih =>
    intro i
    rcases hx : f.geometry.x with _ | lon
    · have hr : retained f = false := by simp [retained, hx]
      simp [convertGo, hx, enumRetained, hr, ih (i + 1), List.countP_cons]
    · rcases hy : f.geometry.y with _ | lat
      · have hr : retained f = false := by simp [retained, hy]
        simp [convertGo, hx, hy, enumRetained, hr, ih (i + 1), List.countP_cons]
      · have hr : retained f = true := by simp [retained, hx, hy]
        simp [convertGo, hx, hy, enumRetained, hr, ih (i + 1), List.countP_cons,
          recordFeature, coordPair, Nat.add_comm]

theorem enumRetained_map_snd {β : Type} (g : ArcgisFeature → β)
    (xs : List ArcgisFeature) : ∀ i : Nat,
    ((enumRetained i xs).map fun p => g p.2) = (xs.filter fun f => retained f).map g := by
  induction xs with
  | nil => intro i; rfl
  | cons f rest ih =>
    intro i
    cases hr : retained f <;> simp [enumRetained, hr, List.filter_cons, ih (i + 1)]

theorem enumRetained_eq_filter_enumFrom (xs : List ArcgisFeature) : ∀ i : Nat,
    enumRetained i xs = (List.enumFrom i xs).filter fun p => retained p.2 := by
  induction xs with
  | nil => intro i; rfl
  | cons f rest ih =>
    intro i
    cases hr : retained f <;> simp [enumRetained, List.enumFrom, hr, ih (i + 1)]

theorem enumRetained_le_fst (xs : List ArcgisFeature) : ∀ i : Nat,
    ∀ p ∈ enumRetained i xs, i ≤ p.1 := by
  induction xs with
  | nil => intro i p hp; cases hp
  | cons f rest ih =>
    intro i p hp
    cases hr : retained f
    · have hp2 : p ∈ enumRetained (i + 1) rest := by
        simpa [enumRetained, hr] using hp
      exact Nat.le_of_succ_le (ih (i + 1) p hp2)
    · rcases (by simpa [enumRetained, hr] using hp :
        p = (i, f) ∨ p ∈ enumRetained (i + 1) rest) with h | h
      · simp [h]
      · exact Nat.le_of_succ_le (ih (i + 1) p h)

theorem enumRetained_pairwise (xs : List ArcgisFeature) : ∀ i : Nat,
    List.Pairwise (fun p q => p.1 < q.1) (enumRetained i xs) := by
  induction xs with
  | nil => intro i; exact List.Pairwise.nil
  | cons f rest ih =>
    intro i
    cases hr : retained f
    · simpa [enumRetained, hr] using ih (i + 1)
    · have hcons : enumRetained i (f :: rest) = (i, f) :: enumRetained (i + 1) rest := by
        simp [enumRetained, hr]
      rw [hcons]
      refine List.Pairwise.cons ?_ (ih (i + 1))
      intro q hq
      exact Nat.lt_of_succ_le (enumRetained_le_fst rest (i + 1) q hq)

theorem enumRetained_snd_mem (xs : List ArcgisFeature) : ∀ i : Nat,
    ∀ p ∈ enumRetained i xs, p.2 ∈ xs := by
  induction xs with
  | nil => intro i p hp; cases hp
  | cons f rest ih =>
    intro i p hp
    cases hr : retained f
    · have hp2 : p ∈ enumRetained (i + 1) rest := by
        simpa [enumRetained, hr] using hp
      exact List.mem_cons_of_mem f (ih (i + 1) p hp2)
    · rcases (by simpa [enumRetained, hr] using hp :
        p = (i, f) ∨ p ∈ enumRetained (i + 1) rest) with h | h
      · simp [h]
      · exact List.mem_cons_of_mem f (ih (i + 1) p h)

theorem convert_features (today : String) (xs : List ArcgisFeature) :
    ((convert_to_app_format today xs).1).features
      = (enumRetained 0 xs).map fun p => recordFeature today p.1 p.2 := by
  simp [convert_to_app_format, convertGo_spec today xs 0]

theorem convert_count (today : String) (xs : List ArcgisFeature) :
    (convert_to_app_format today xs).2
      = xs.countP fun f => retained f && swedishInc f.attributes := by
  simp [convert_to_app_format, convertGo_spec today xs 0]

theorem plasserOut_eq (a : Attributes) : plasserOut a = capacityNum a := by
  unfold plasserOut
  split <;> omega

theorem capacityNum_eq_spec (a : Attributes) :
    capacityNum a = capacitySpec a.antalPlatser := by
  unfold capacityNum capacitySpec
  rcases a.antalPlatser with _ | (_ | n) <;> rfl

theorem adresseOut_eq_spec (a : Attributes) :
    adresseOut a = adresseSpec a.gatuadress := by
  rcases ha : a.gatuadress with _ | (_ | s)
  · have h1 : adresseOut a
        = (if ("Okänd adress" : String).isEmpty then some ("Okänd adress" : String)
           else some (strip "Okänd adress")) := by
      unfold adresseOut rawAddress
      rw [ha]
    rw [h1]
    decide
  · unfold adresseOut rawAddress adresseSpec
    rw [ha]
  · unfold adresseOut rawAddress adresseSpec
    rw [ha]

/-! ### Claim theorems -/

/-- Concrete record with no geometry keys, used to exhibit a skip. -/
def c1NoGeom : ArcgisFeature := ⟨⟨some (some "A"), none, none⟩, ⟨none, none⟩⟩

/-- Concrete record with full geometry, following a skipped record. -/
def c1Good : ArcgisFeature := ⟨⟨some (some "B"), none, none⟩, ⟨some 1, some 2⟩⟩

/-- Claim C1 (counterexample): the claim says the output romnr values are
exactly 0,1,2,... in emission order.  On the input [record without geometry,
record with geometry] the single emitted feature has romnr 1 (its INPUT
position), not 0, so the skipped record does affect the numbering. -/
theorem C1_counterexample :
    romnrSeq "2025-01-01" [c1NoGeom, c1Good]
      ≠ List.range (romnrSeq "2025-01-01" [c1NoGeom, c1Good]).length := by
  decide

/-- Claim C1 (amended): each retained record's romnr equals its 0-based
position in the INPUT sequence — the sequence of romnr values is the list of
input positions of the retained records, so skipped records leave gaps. -/
theorem C1_amended (today : String) (xs : List ArcgisFeature) :
    romnrSeq today xs
      = ((List.enumFrom 0 xs).filter fun p => retained p.2).map fun p => p.1 := by
  rw [romnrSeq, convert_features, List.map_map, ← enumRetained_eq_filter_enumFrom xs 0]
  rfl

/-- Concrete record whose geometry has an x key but no y key. -/
def c2XOnly : ArcgisFeature := ⟨⟨some (some "A"), none, none⟩, ⟨some 1, none⟩⟩

/-- Claim C2 (counterexample): the claim says a record with at least one of x
or y is retained.  A record with only x is skipped by the code (line 77
requires both keys), producing an empty output. -/
theorem C2_counterexample :
    (c2XOnly.geometry.x.isSome || c2XOnly.geometry.y.isSome) = true ∧
    ((convert_to_app_format "2025-01-01" [c2XOnly]).1).features = [] := by
  decide

/-- Claim C2 (amended): the transformer emits exactly one feature per record
whose geometry has BOTH the x and the y key; every other record is skipped. -/
theorem C2_amended (today : String) (xs : List ArcgisFeature) :
    ((convert_to_app_format today xs).1).features.length
      = (xs.filter fun f => retained f).length := by
  have h := congrArg List.length (enumRetained_map_snd (fun f => f) xs 0)
  simpa [convert_features] using h

/-- Claim C10: over any input sequence, the romnr values of the output
features are strictly increasing in emission order (each retained record
keeps its input position, so the values never repeat or decrease). -/
theorem C10_romnr_strictly_increasing (today : String) (xs : List ArcgisFeature) :
    List.Pairwise (fun a b => a < b) (romnrSeq today xs) := by
  have h : romnrSeq today xs = (enumRetained 0 xs).map fun p => p.1 := by
    rw [romnrSeq, convert_features, List.map_map]
    rfl
  rw [h, List.pairwise_map]
  exact enumRetained_pairwise xs 0

/-- Concrete record carrying a negative capacity attribute. -/
def c3Neg : ArcgisFeature := ⟨⟨some (some "A"), some (some (-5)), none⟩, ⟨some 1, some 2⟩⟩

/-- Claim C3 (counterexample): the claim says plasser is non-negative
regardless of the numeric value of the source capacity attribute.  A record
with AntalPlatser = -5 is converted to a feature with plasser = -5 < 0: the
code applies no lower bound. -/
theorem C3_counterexample :
    ¬ ∀ g ∈ ((convert_to_app_format "2025-01-01" [c3Neg]).1).features, 0 ≤ g.plasser := by
  decide

/-- Claim C3 (amended): when every record's capacity attribute is missing,
null, or non-negative (as the service data is), every output plasser is
non-negative; a negative source value would be passed through unchanged. -/
theorem C3_amended (today : String) (xs : List ArcgisFeature)
    (h : ∀ f ∈ xs, 0 ≤ capacityNum f.attributes) :
    ∀ g ∈ ((convert_to_app_format today xs).1).features, 0 ≤ g.plasser := by
  intro g hg
  rw [convert_features] at hg
  rcases List.mem_map.mp hg with ⟨p, hp, rfl⟩
  have hmem : p.2 ∈ xs := enumRetained_snd_mem xs 0 p hp
  have hcap := h p.2 hmem
  simpa [recordFeature, plasserOut_eq] using hcap

/-- Concrete well-formed record used to instantiate hypotheses. -/
def c3W : ArcgisFeature := ⟨⟨some (some "A"), some (some 7), none⟩, ⟨some 1, some 2⟩⟩

/-- The feature the conversion emits for c3W. -/
def c3WOut : NormalizedFeature := ⟨(1, 2), 0, 7, some "A", "2025-01-01"⟩

/-- Witness for C3_amended at a concrete input. -/
theorem C3_amended_witness : (0 : Int) ≤ c3WOut.plasser :=
  C3_amended "2025-01-01" [c3W] (by decide) c3WOut (by decide)

/-- Concrete record whose address attribute is present but empty. -/
def c4Empty : ArcgisFeature := ⟨⟨some (some ""), none, none⟩, ⟨some 1, some 2⟩⟩

/-- Claim C4 (counterexample): the claim says an empty source address yields
the fixed placeholder.  The code only defaults when the KEY is absent; an
empty string is falsy, skips the strip branch, and is emitted unchanged. -/
theorem C4_counterexample :
    ((convert_to_app_format "2025-01-01" [c4Empty]).1).features.map (fun g => g.adresse)
        = [some ""] ∧ ((some "" : Option String) ≠ some "Okänd adress") := by
  decide

/-- Claim C4 (amended): per retained record, adresse is the placeholder
exactly when the address key is missing; a stored null is passed through as
null, a stored empty string as the empty string, and any other stored string
is trimmed of surrounding whitespace. -/
theorem C4_amended (today : String) (xs : List ArcgisFeature) :
    ((convert_to_app_format today xs).1).features.map (fun g => g.adresse)
      = (xs.filter fun f => retained f).map fun f => adresseSpec f.attributes.gatuadress := by
  rw [convert_features, List.map_map]
  have hfun : ((fun g : NormalizedFeature => g.adresse) ∘
      fun p : Nat × ArcgisFeature => recordFeature today p.1 p.2)
      = fun p : Nat × ArcgisFeature => adresseSpec p.2.attributes.gatuadress := by
    funext p
    simp [recordFeature, adresseOut_eq_spec]
  rw [hfun]
  exact enumRetained_map_snd (fun f => adresseSpec f.attributes.gatuadress) xs 0

/-- Claim C5: per retained record, the output coordinate pair is exactly the
(x, y) stored in the source geometry — coordPair reads the stored values
and the program applies no transformation to them. -/
theorem C5_coordinates (today : String) (xs : List ArcgisFeature) :
    ((convert_to_app_format today xs).1).features.map (fun g => g.coordinates)
      = (xs.filter fun f => retained f).map coordPair := by
  rw [convert_features, List.map_map]
  have hfun : ((fun g : NormalizedFeature => g.coordinates) ∘
      fun p : Nat × ArcgisFeature => recordFeature today p.1 p.2)
      = fun p : Nat × ArcgisFeature => coordPair p.2 := by
    funext p
    simp [recordFeature]
  rw [hfun]
  exact enumRetained_map_snd coordPair xs 0

/-- Claim C6: per retained record, plasser is 0 when the capacity attribute
is missing or null, and otherwise the stored value coerced to an integer
(identity here, since the field is an integer). -/
theorem C6_capacity (today : String) (xs : List ArcgisFeature) :
    ((convert_to_app_format today xs).1).features.map (fun g => g.plasser)
      = (xs.filter fun f => retained f).map fun f => capacitySpec f.attributes.antalPlatser := by
  rw [convert_features, List.map_map]
  have hfun : ((fun g : NormalizedFeature => g.plasser) ∘
      fun p : Nat × ArcgisFeature => recordFeature today p.1 p.2)
      = fun p : Nat × ArcgisFeature => capacitySpec p.2.attributes.antalPlatser := by
    funext p
    simp [recordFeature, plasserOut_eq, capacityNum_eq_spec]
  rw [hfun]
  exact enumRetained_map_snd (fun f => capacitySpec f.attributes.antalPlatser) xs 0

/-- Claim C7: whenever the loop still has fuel and the page at the current
offset has strictly fewer features than the page size (2000), that page is
the last one consumed: its features are appended to the accumulator and the
only offset requested from this point on is the current one, whatever the
server would answer at later offsets. -/
theorem C7_short_page_last (server : Nat → FetchResponse) (fuel offset : Nat)
    (acc fs : List ArcgisFeature) (hresp : server offset = FetchResponse.ok fs)
    (hlen : fs.length < pageSize) :
    fetchLoop server (fuel + 1) offset acc = (acc ++ fs, [offset]) := by
  unfold fetchLoop
  rw [hresp]
  rcases fs with _ | ⟨f, rest⟩
  · simp
  · have hne : (f :: rest).isEmpty = false := rfl
    simp [hne, hlen]
    intro hge
    exfalso
    have hlen2 : rest.length + 1 < pageSize := by simpa using hlen
    omega

/-- Concrete record used in the C7 witness server. -/
def c7Feat : ArcgisFeature := ⟨⟨some (some "A"), some (some 3), none⟩, ⟨some 1, some 2⟩⟩

/-- Witness for C7_short_page_last: a server whose first page holds one
feature (short page) is queried exactly once, at offset 0. -/
theorem C7_short_page_last_witness :
    fetchLoop (fun _ => FetchResponse.ok [c7Feat]) 1 0 [] = ([c7Feat], [0]) :=
  C7_short_page_last (fun _ => FetchResponse.ok [c7Feat]) 0 0 [] [c7Feat] rfl (by decide)

/-- Claim C8 (counterexample): the claim says the diagnostic counter is
driven by a fixed set of EIGHT diacritic characters.  The fixed list in the
code has exactly six characters (å, ä, ö and their uppercase forms). -/
theorem C8_counterexample : swedishChars.length = 6 ∧ swedishChars.length ≠ 8 := by
  decide

/-- Claim C8 (amended): for retained records the counter counts exactly those
whose address value is a non-null, non-empty string whose stripped form
contains one of the SIX characters å, ä, ö, Å, Ä, Ö; the counter is returned
beside the document, which has no field for it. -/
theorem C8_amended (today : String) (xs : List ArcgisFeature) :
    (convert_to_app_format today xs).2
      = ((xs.filter fun f => retained f).filter fun f => swedishInc f.attributes).length := by
  rw [convert_count, List.filter_filter, List.countP_eq_length_filter]
  congr 1
  exact List.filter_congr fun a _ => Bool.and_comm (retained a) (swedishInc a.attributes)

/-- Claim C9: the modelled __main__ exits with code 1 exactly when the fetch
stage returned zero records, and with code 0 exactly when it returned at
least one (in which case the converted document exists). -/
theorem C9_exit_code (today : String) (server : Nat → FetchResponse) (fuel : Nat) :
    ((runMain today server fuel).1 = 1 ↔ fetch_all_shelters server fuel = [])
    ∧ ((runMain today server fuel).1 = 0 ↔ fetch_all_shelters server fuel ≠ []) := by
  rcases h : fetch_all_shelters server fuel with _ | ⟨f, rest⟩ <;>
    simp [runMain, h]

end SwedenShelters
